import Mathlib

/-!
Verification of the gemini-repo-cli generation pipeline.

The repository contains two generations of the pipeline:

* the strict pipeline: `src/gemini_repo/api.py` (class `GeminiRepoAPI`) and
  `src/gemini_repo/cli.py` (`main`), where a missing context file aborts the
  whole request and the CLI exits non-zero on every failure;
* the legacy best-effort pipeline: `gemini_repo/gemini_repo_api.py` and
  `gemini_repo_cli/gemini_repo_cli.py`, where unreadable (and empty) context
  files are silently skipped and `main` always returns normally.

Files are modelled as a map from path to a read outcome; Python exceptions
become explicit error values; the network backend is a parameter.
-/

namespace GeminiRepo

/-- Outcome of opening and reading one file: the file exists and reads as
`content`, the file does not exist (Python `FileNotFoundError`), or reading
fails for another reason (any other `Exception` with message `msg`). -/
inductive FileRead where
  | ok (content : String)
  | notFound
  | readError (msg : String)
deriving DecidableEq

/-- The filesystem visible to the pipeline. -/
abbrev FS := String → FileRead

/-- The kind of a raised Python exception:
`FileNotFoundError`, `IOError`, `ValueError`, or a plain `Exception`. -/
inductive ErrKind where
  | fileNotFound
  | ioError
  | valueError
  | exception
deriving DecidableEq

/-- A raised Python exception: its class and its message (`str(e)`). -/
structure PyErr where
  kind : ErrKind
  msg : String
deriving DecidableEq

/-- Python `"".join(parts)`. -/
def strJoin : List String → String
  | [] => ""
  | s :: rest => s ++ strJoin rest

/-- The generation parameters of `google.genai.types.GenerateContentConfig`
that the program sets.  The `temperature` float literal is modelled by the
rational number the source literal denotes. -/
structure GenConfig where
  candidate_count : Nat
  temperature : ℚ
  max_output_tokens : Nat
deriving DecidableEq

/-- One streamed response chunk; `parts` are its text parts
(`chunk.parts` in the stream loop). -/
structure Chunk where
  parts : List String
deriving DecidableEq

/-- `chunk.text`: the concatenated text of the chunk's parts. -/
def Chunk.text (c : Chunk) : String := strJoin c.parts

/-- The state a constructed `GeminiRepoAPI` instance holds:
`self.api_key`, `self.model_name`, `self.generation_config`. -/
structure ProviderHandle where
  api_key : String
  model_name : String
  config : GenConfig
deriving DecidableEq

/-- The result of `GeminiRepoAPI.__init__` is a `MissingCredential` failure:
a `ValueError` was raised (construction reached no other outcome). -/
def isMissingCredential : Except PyErr ProviderHandle → Prop
  | .error e => e.kind = .valueError
  | .ok _ => False

namespace Api

/-- `GeminiRepoAPI._read_file_content` (src/gemini_repo/api.py, lines
142-173): returns the content; a missing file raises
`FileNotFoundError("Context file not found: {file_path}")`; any other read
failure raises `IOError("Error reading file {file_path}: {e}")`. -/
def read_file_content (fs : FS) (file_path : String) : Except PyErr String :=
  match fs file_path with
  | .ok content => .ok content
  | .notFound => .error ⟨.fileNotFound, "Context file not found: " ++ file_path⟩
  | .readError e => .error ⟨.ioError, "Error reading file " ++ file_path ++ ": " ++ e⟩

/-- The context-file loop of `GeminiRepoAPI._create_prompt_inputs`
(src/gemini_repo/api.py, lines 207-217): one
`"⫻context/file:{file_path}\n{file_content}"` part per path, in order;
the first read failure aborts the whole build. -/
def context_parts (fs : FS) : List String → Except PyErr (List String)
  | [] => .ok []
  | p :: ps =>
    match read_file_content fs p with
    | .error e => .error e
    | .ok content =>
      match context_parts fs ps with
      | .error e => .error e
      | .ok rest => .ok (("⫻context/file:" ++ p ++ "\n" ++ content) :: rest)

/-- `GeminiRepoAPI._create_prompt_inputs` (src/gemini_repo/api.py, lines
175-227): `[initial_prompt, "⫻const:repo_name\n{repo_name}"]`, then the
context parts, then `"Generate content for the file: {target_file_name}\n"`. -/
def create_prompt_inputs (fs : FS) (repo_name : String) (file_paths : List String)
    (target_file_name : String) (initial_prompt : String) : Except PyErr (List String) :=
  match context_parts fs file_paths with
  | .error e => .error e
  | .ok parts =>
    .ok ([initial_prompt, "⫻const:repo_name\n" ++ repo_name]
      ++ parts
      ++ ["Generate content for the file: " ++ target_file_name ++ "\n"])

/-- The `GenerateContentConfig` set by `GeminiRepoAPI.__init__`
(src/gemini_repo/api.py, lines 65-69). -/
def generation_config : GenConfig :=
  { candidate_count := 1, temperature := 2/10, max_output_tokens := 8192 }

/-- The key-resolution line of `GeminiRepoAPI.__init__`:
`self.api_key = api_key or os.getenv('GEMINI_API_KEY')` — Python `or` takes
the right operand when the left is `None` or the empty string.  `env_key` is
the value of `GEMINI_API_KEY` (`none` when unset). -/
def resolved_key (api_key env_key : Option String) : Option String :=
  match api_key with
  | some k => if k = "" then env_key else some k
  | none => env_key

/-- `GeminiRepoAPI.__init__` (src/gemini_repo/api.py, lines 31-78): resolves
the key; raises `ValueError` when it is `None` or empty; then constructs the
client (`client_init`, the network boundary), wrapping a client failure in
`Exception("Failed to initialize Google Gemini client: {e}")`; finally fixes
`generation_config`. -/
def init (client_init : String → Except String Unit)
    (api_key env_key : Option String) (model_name : String) :
    Except PyErr ProviderHandle :=
  match resolved_key api_key env_key with
  | none => .error ⟨.valueError, "GEMINI_API_KEY not provided or set in environment variables."⟩
  | some k =>
    if k = "" then
      .error ⟨.valueError, "GEMINI_API_KEY not provided or set in environment variables."⟩
    else
      match client_init k with
      | .error e => .error ⟨.exception, "Failed to initialize Google Gemini client: " ++ e⟩
      | .ok _ => .ok ⟨k, model_name, generation_config⟩

/-- `GeminiRepoAPI.generate_content` (src/gemini_repo/api.py, lines 80-140):
builds the prompt inputs, sends them to the backend (`backend` receives the
model name, the generation config and the contents and yields the streamed
chunks or an error message), and accumulates `chunk.text` of every chunk
with non-empty `parts`.  A `FileNotFoundError` is re-raised unchanged; every
other failure is wrapped in
`Exception("An error occurred during content generation: {e}")`. -/
def generate_content (fs : FS)
    (backend : String → GenConfig → List String → Except String (List Chunk))
    (handle : ProviderHandle) (repo_name : String) (file_paths : List String)
    (target_file_name : String) (prompt : String) : Except PyErr String :=
  match create_prompt_inputs fs repo_name file_paths target_file_name prompt with
  | .error e =>
    match e.kind with
    | .fileNotFound => .error e
    | _ => .error ⟨.exception, "An error occurred during content generation: " ++ e.msg⟩
  | .ok inputs =>
    match backend handle.model_name handle.config inputs with
    | .error e => .error ⟨.exception, "An error occurred during content generation: " ++ e⟩
    | .ok chunks =>
      .ok (strJoin ((chunks.filter fun c => !c.parts.isEmpty).map Chunk.text))

end Api

namespace Legacy

/-- `GeminiRepoAPI._read_file_content` (gemini_repo/gemini_repo_api.py,
lines 93-119) and the identical free function `read_file_content`
(gemini_repo_cli/gemini_repo_cli.py, lines 21-47): returns the content, or
`None` when the file is missing or any other read error occurs. -/
def read_file_content (fs : FS) (file_path : String) : Option String :=
  match fs file_path with
  | .ok content => some content
  | .notFound => none
  | .readError _ => none

/-- `GeminiRepoAPI._create_prompt_inputs` (gemini_repo/gemini_repo_api.py,
lines 121-150) and the identical free function `create_prompt_inputs`
(gemini_repo_cli/gemini_repo_cli.py, lines 50-79): the first part merges the
initial prompt and the repo tag; a context part is appended only when
`read_file_content` returns a truthy value (`if file_content:`), i.e. a
non-`None`, non-empty string; the final part is `"Generate {target}\n"`. -/
def create_prompt_inputs (fs : FS) (repo_name : String) (file_paths : List String)
    (target_file_name : String) (initial_prompt : String) : List (List String) :=
  [[initial_prompt, "⫻const:repo_name\n" ++ repo_name]]
    ++ file_paths.filterMap (fun p =>
        match read_file_content fs p with
        | some content =>
          if content = "" then none
          else some ["⫻context/file:" ++ p ++ "\n" ++ content]
        | none => none)
    ++ [["Generate " ++ target_file_name ++ "\n"]]

/-- The `GenerateContentConfig` of the legacy pipeline, set both by
`GeminiRepoAPI.__init__` (gemini_repo/gemini_repo_api.py, line 46) and by
`main` (gemini_repo_cli/gemini_repo_cli.py, line 192). -/
def generation_config : GenConfig :=
  { candidate_count := 1, temperature := 1/10, max_output_tokens := 8192 }

/-- `GeminiRepoAPI.generate_content` (gemini_repo/gemini_repo_api.py, lines
50-91): builds the prompt inputs (best-effort assembly never raises), sends
them to the backend, and accumulates with `generated_content += part.text`
over every streamed part — no guard, unlike the strict variant.  Any failure
in the `try` block is wrapped in
`Exception("An error occurred during content generation: {e}")`. -/
def generate_content (fs : FS)
    (backend : String → GenConfig → List (List String) → Except String (List Chunk))
    (handle : ProviderHandle) (repo_name : String) (file_paths : List String)
    (target_file_name : String) (prompt : String) : Except PyErr String :=
  let inputs := create_prompt_inputs fs repo_name file_paths target_file_name prompt
  match backend handle.model_name handle.config inputs with
  | .error e => .error ⟨.exception, "An error occurred during content generation: " ++ e⟩
  | .ok chunks => .ok (chunks.foldl (fun acc c => acc ++ c.text) "")

/-- What a finished CLI process run looks like from outside: its exit code
and the error message it printed, if any. -/
structure CliOutcome where
  exitCode : Nat
  errorMessage : Option String
deriving DecidableEq

/-- `main` of the legacy CLI (gemini_repo_cli/gemini_repo_cli.py, lines
149-214), from the point where the prompt inputs are built: builds the
inputs, checks `GEMINI_API_KEY`, constructs the client and streams the
response.  Every failure path prints a message and returns normally, so the
process exit code is 0 on every path. -/
def main (fs : FS) (client_init : String → Except String Unit)
    (backend : String → GenConfig → List (List String) → Except String Unit)
    (env_key : Option String) (model_name repo_name target_file_name prompt : String)
    (context_file_paths : List String) : CliOutcome :=
  let inputs := create_prompt_inputs fs repo_name context_file_paths target_file_name prompt
  match env_key with
  | none => ⟨0, some "Error: GEMINI_API_KEY environment variable not set."⟩
  | some k =>
    if k = "" then ⟨0, some "Error: GEMINI_API_KEY environment variable not set."⟩
    else
      match client_init k with
      | .error e => ⟨0, some ("An error occurred during content generation: " ++ e)⟩
      | .ok _ =>
        match backend model_name generation_config inputs with
        | .error e => ⟨0, some ("An error occurred during content generation: " ++ e)⟩
        | .ok _ => ⟨0, none⟩

end Legacy

namespace Cli

/-- `main` of the strict CLI (src/gemini_repo/cli.py, lines 72-201), reduced
to its exit code: `sys.exit(1)` when API construction fails, when
`generate_content` fails, or when writing the output fails; otherwise the
process finishes normally with exit code 0. -/
def main (fs : FS) (client_init : String → Except String Unit)
    (backend : String → GenConfig → List String → Except String (List Chunk))
    (write_output : String → Except String Unit)
    (api_key_arg env_key : Option String)
    (model_name repo_name target_file prompt : String) (files : List String) : Nat :=
  match Api.init client_init api_key_arg env_key model_name with
  | .error _ => 1
  | .ok handle =>
    match Api.generate_content fs backend handle repo_name files target_file prompt with
    | .error _ => 1
    | .ok content =>
      match write_output content with
      | .error _ => 1
      | .ok _ => 0

end Cli

/-- Modelled from the spec: the `ProviderAdapter` convenience method
`generateComplete` (spec section 4.3), which is absent from src/ — it
"concatenates all chunks and returns a single string for non-streaming
consumers". -/
def generateComplete (chunks : List Chunk) : String :=
  strJoin (chunks.map Chunk.text)

/-- The demo filesystem of spec section 8: `a.txt` contains `"hello"` and no
other file exists. -/
def demoFS : FS := fun p => if p = "a.txt" then .ok "hello" else .notFound

/-- A filesystem in which `e.txt` exists and reads as the empty string. -/
def emptyFileFS : FS := fun p => if p = "e.txt" then .ok "" else .notFound

/-- A filesystem with no files at all. -/
def bareFS : FS := fun _ => .notFound

/-- The demo stream of spec section 8. -/
def demoChunks : List Chunk := [⟨["Hel"]⟩, ⟨["lo, "]⟩, ⟨["world"]⟩]

/-- A client constructor that always succeeds: stands for a reachable
backend. -/
def okClient : String → Except String Unit := fun _ => .ok ()

/-- The handle produced by a successful construction with explicit key
`"key"` and the default model. -/
def demoHandle : ProviderHandle := ⟨"key", "gemini-2.0-flash", Api.generation_config⟩

/-- A backend whose generation call raises an error with message `"boom"`. -/
def boomBackend : String → GenConfig → List String → Except String (List Chunk) :=
  fun _ _ _ => .error "boom"

/-- A backend that streams the demo chunks. -/
def demoBackend : String → GenConfig → List String → Except String (List Chunk) :=
  fun _ _ _ => .ok demoChunks

/-- An output writer that always succeeds. -/
def okWrite : String → Except String Unit := fun _ => .ok ()

/-- A legacy-CLI backend whose streamed printing succeeds. -/
def okLegacyBackend : String → GenConfig → List (List String) → Except String Unit :=
  fun _ _ _ => .ok ()

/-! ## Helper lemmas -/

theorem str_append_empty (s : String) : s ++ "" = s := String.append_empty s

theorem context_parts_all_ok (fs : FS) (content : String → String)
    (paths : List String) (h : ∀ p ∈ paths, fs p = .ok (content p)) :
    Api.context_parts fs paths =
      .ok (paths.map fun p => "⫻context/file:" ++ p ++ "\n" ++ content p) := by
  induction paths with
  | nil => rfl
  | cons p ps ih =>
    have hp : fs p = .ok (content p) := h p (List.mem_cons_self p ps)
    have ih' := ih fun q hq => h q (List.mem_cons_of_mem _ hq)
    simp [Api.context_parts, Api.read_file_content, hp, ih']

theorem context_parts_notFound (fs : FS) (paths : List String)
    (h1 : ∃ p ∈ paths, fs p = .notFound)
    (h2 : ∀ p ∈ paths, ∀ e, fs p ≠ .readError e) :
    ∃ p, p ∈ paths ∧ fs p = .notFound ∧
      Api.context_parts fs paths =
        .error ⟨.fileNotFound, "Context file not found: " ++ p⟩ := by
  induction paths with
  | nil =>
    obtain ⟨p, hp, _⟩ := h1
    exact absurd hp (List.not_mem_nil p)
  | cons p ps ih =>
    cases hfp : fs p with
    | ok c =>
      obtain ⟨q, hq, hqnf⟩ := h1
      rcases List.mem_cons.mp hq with rfl | hq'
      · rw [hfp] at hqnf; simp at hqnf
      · obtain ⟨r, hr, hrnf, herr⟩ :=
          ih ⟨q, hq', hqnf⟩ fun s hs e => h2 s (List.mem_cons_of_mem _ hs) e
        exact ⟨r, List.mem_cons_of_mem _ hr, hrnf, by
          simp [Api.context_parts, Api.read_file_content, hfp, herr]⟩
    | notFound =>
      exact ⟨p, List.mem_cons_self p ps, hfp, by
        simp [Api.context_parts, Api.read_file_content, hfp]⟩
    | readError e => exact absurd hfp (h2 p (List.mem_cons_self p ps) e)

theorem context_parts_error_kind (fs : FS) (paths : List String) (e : PyErr)
    (h : Api.context_parts fs paths = .error e) :
    e.kind = .fileNotFound ∨ e.kind = .ioError := by
  induction paths with
  | nil => simp [Api.context_parts] at h
  | cons p ps ih =>
    cases hfp : fs p with
    | ok c =>
      cases hcp : Api.context_parts fs ps with
      | error e' =>
        simp [Api.context_parts, Api.read_file_content, hfp, hcp] at h
        rw [h] at hcp
        exact ih hcp
      | ok rest =>
        simp [Api.context_parts, Api.read_file_content, hfp, hcp] at h
    | notFound =>
      simp [Api.context_parts, Api.read_file_content, hfp] at h
      rw [← h]
      exact Or.inl rfl
    | readError m =>
      simp [Api.context_parts, Api.read_file_content, hfp] at h
      rw [← h]
      exact Or.inr rfl

theorem create_prompt_inputs_error_kind (fs : FS)
    (repo_name target instruction : String) (paths : List String) (e : PyErr)
    (h : Api.create_prompt_inputs fs repo_name paths target instruction = .error e) :
    e.kind = .fileNotFound ∨ e.kind = .ioError := by
  cases hcp : Api.context_parts fs paths with
  | error e' =>
    simp [Api.create_prompt_inputs, hcp] at h
    rw [h] at hcp
    exact context_parts_error_kind fs paths e hcp
  | ok parts => simp [Api.create_prompt_inputs, hcp] at h

theorem strJoin_filter_nonempty (chunks : List Chunk) :
    strJoin ((chunks.filter fun c => !c.parts.isEmpty).map Chunk.text) =
      strJoin (chunks.map Chunk.text) := by
  induction chunks with
  | nil => rfl
  | cons c cs ih =>
    cases hc : c.parts with
    | nil => simp [List.filter_cons, hc, Chunk.text, strJoin, ih]
    | cons a as => simp [List.filter_cons, hc, Chunk.text, strJoin, ih]

theorem foldl_append_text (chunks : List Chunk) (acc : String) :
    chunks.foldl (fun a c => a ++ c.text) acc = acc ++ strJoin (chunks.map Chunk.text) := by
  induction chunks generalizing acc with
  | nil => exact (str_append_empty acc).symm
  | cons c cs ih =>
    simp only [List.foldl_cons, List.map_cons, strJoin]
    rw [ih (acc ++ c.text), String.append_assoc]

theorem init_missing_key (client_init : String → Except String Unit)
    (api_key env_key : Option String) (model_name : String)
    (ha : api_key = none ∨ api_key = some "")
    (henv : env_key = none ∨ env_key = some "") :
    Api.init client_init api_key env_key model_name =
      .error ⟨.valueError, "GEMINI_API_KEY not provided or set in environment variables."⟩ := by
  rcases ha with rfl | rfl <;> rcases henv with rfl | rfl <;> rfl

theorem getLast?_cons_cons_append (a b : α) (l : List α) (x : α) :
    (a :: b :: (l ++ [x])).getLast? = some x := by
  rw [List.getLast?_cons_cons, ← List.cons_append]
  exact List.getLast?_concat _

theorem opt_nonempty_of_not_blank (o : Option String)
    (h : ¬(o = none ∨ o = some "")) : ∃ k, o = some k ∧ k ≠ "" := by
  cases o with
  | none => exact absurd (Or.inl rfl) h
  | some k =>
    refine ⟨k, rfl, fun hk => ?_⟩
    exact h (Or.inr (by rw [hk]))

theorem not_missing_of_available (client_init : String → Except String Unit)
    (api_key env_key : Option String) (model_name : String)
    (hav : (∃ k, api_key = some k ∧ k ≠ "") ∨ (∃ k, env_key = some k ∧ k ≠ "")) :
    ¬ isMissingCredential (Api.init client_init api_key env_key model_name) := by
  have hkey : ∃ k, Api.resolved_key api_key env_key = some k ∧ k ≠ "" := by
    rcases hav with ⟨k, rfl, hk⟩ | ⟨k, rfl, hk⟩
    · exact ⟨k, by simp [Api.resolved_key, if_neg hk], hk⟩
    · cases api_key with
      | none => exact ⟨k, rfl, hk⟩
      | some ka =>
        by_cases hka : ka = ""
        · subst hka
          exact ⟨k, by simp [Api.resolved_key], hk⟩
        · exact ⟨ka, by simp [Api.resolved_key, if_neg hka], hka⟩
  obtain ⟨k, hkeq, hk⟩ := hkey
  cases hci : client_init k with
  | error e => simp [Api.init, hkeq, if_neg hk, hci, isMissingCredential]
  | ok u => simp [Api.init, hkeq, if_neg hk, hci, isMissingCredential]

theorem init_ok_shape (client_init : String → Except String Unit)
    (api_key env_key : Option String) (model_name : String)
    (handle : ProviderHandle)
    (h : Api.init client_init api_key env_key model_name = .ok handle) :
    ∃ k, Api.resolved_key api_key env_key = some k ∧ k ≠ "" ∧
      handle = ⟨k, model_name, Api.generation_config⟩ := by
  cases hkey : Api.resolved_key api_key env_key with
  | none => simp [Api.init, hkey] at h
  | some k =>
    by_cases hk : k = ""
    · subst hk
      simp [Api.init, hkey] at h
    · cases hci : client_init k with
      | error e => simp [Api.init, hkey, if_neg hk, hci] at h
      | ok u =>
        simp [Api.init, hkey, if_neg hk, hci] at h
        exact ⟨k, rfl, hk, h.symm⟩

theorem legacy_context_filter (fs : FS) (paths : List String) :
    (paths.filterMap fun p =>
        match Legacy.read_file_content fs p with
        | some content =>
          if content = "" then none
          else some ["⫻context/file:" ++ p ++ "\n" ++ content]
        | none => none) =
      (paths.filter fun p =>
          decide (((Legacy.read_file_content fs p).getD "") ≠ "")).map
        fun p => ["⫻context/file:" ++ p ++ "\n" ++ (Legacy.read_file_content fs p).getD ""] := by
  induction paths with
  | nil => rfl
  | cons p ps ih =>
    cases hp : Legacy.read_file_content fs p with
    | none => simp [List.filterMap_cons, List.filter_cons, hp, ih]
    | some c =>
      by_cases hc : c = ""
      · subst hc
        simp [List.filterMap_cons, List.filter_cons, hp, ih]
      · simp [List.filterMap_cons, List.filter_cons, hp, hc, ih]

/-! ## Claim theorems -/

/-- C1 counterexample: on the legacy assembler
(`GeminiRepoAPI._create_prompt_inputs` in gemini_repo/gemini_repo_api.py),
at the spec's demo input with every context path readable, the final segment
is `"Generate out.md\n"`, not the claimed literal
`"Generate content for the file: out.md\n"` — so the claim, read over every
prompt-assembly call in the repository, is false. -/
theorem legacy_prompt_final_segment_differs :
    demoFS "a.txt" = .ok "hello" ∧
    (Legacy.create_prompt_inputs demoFS "demo" ["a.txt"] "out.md" "Summarize").getLast? =
      some ["Generate out.md\n"] ∧
    ("Generate out.md\n" : String) ≠ "Generate content for the file: out.md\n" :=
  ⟨rfl, rfl, by decide⟩

/-- C1 (amended to the strict assembler `GeminiRepoAPI._create_prompt_inputs`
in src/gemini_repo/api.py): with every context path readable, the assembled
prompt is exactly, in order: the instruction; `⫻const:repo_name\n` followed
by the repository name; one `⫻context/file:{path}\n{content}` segment per
context path in caller order; and finally
`Generate content for the file: {target}\n` — no other segments. -/
theorem strict_prompt_assembly_exact (fs : FS) (content : String → String)
    (repo_name instruction target : String) (paths : List String)
    (h : ∀ p ∈ paths, fs p = .ok (content p)) :
    Api.create_prompt_inputs fs repo_name paths target instruction =
      .ok ([instruction, "⫻const:repo_name\n" ++ repo_name]
        ++ (paths.map fun p => "⫻context/file:" ++ p ++ "\n" ++ content p)
        ++ ["Generate content for the file: " ++ target ++ "\n"]) := by
  simp [Api.create_prompt_inputs, context_parts_all_ok fs content paths h]

/-- C1 witness: the spec section 8 end-to-end scenario. -/
theorem strict_prompt_assembly_demo :
    Api.create_prompt_inputs demoFS "demo" ["a.txt"] "out.md" "Summarize" =
      .ok ["Summarize", "⫻const:repo_name\ndemo", "⫻context/file:a.txt\nhello",
        "Generate content for the file: out.md\n"] :=
  strict_prompt_assembly_exact demoFS (fun _ => "hello") "demo" "Summarize" "out.md"
    ["a.txt"] (by intro p hp; simp at hp; subst hp; rfl)

/-- C2: when some context path does not exist (and no path fails for
another reason), strict-mode assembly fails with the
`FileNotFoundError` whose message names a missing path, no prompt is
produced, and `generate_content` returns that same error for every backend
and handle — no call reaches the backend. -/
theorem strict_missing_context_file_fails (fs : FS)
    (repo_name instruction target : String) (paths : List String)
    (h1 : ∃ p ∈ paths, fs p = .notFound)
    (h2 : ∀ p ∈ paths, ∀ e, fs p ≠ .readError e) :
    ∃ p, p ∈ paths ∧ fs p = .notFound ∧
      Api.create_prompt_inputs fs repo_name paths target instruction =
        .error ⟨.fileNotFound, "Context file not found: " ++ p⟩ ∧
      ∀ backend handle,
        Api.generate_content fs backend handle repo_name paths target instruction =
          .error ⟨.fileNotFound, "Context file not found: " ++ p⟩ := by
  obtain ⟨p, hp, hnf, herr⟩ := context_parts_notFound fs paths h1 h2
  refine ⟨p, hp, hnf, ?_, ?_⟩
  · simp [Api.create_prompt_inputs, herr]
  · intro backend handle
    simp [Api.generate_content, Api.create_prompt_inputs, herr]

/-- C2 witness: the spec section 8 scenario with `a.txt` missing. -/
theorem strict_missing_context_file_demo :
    ∃ p, p ∈ ["a.txt"] ∧ bareFS p = .notFound ∧
      Api.create_prompt_inputs bareFS "demo" ["a.txt"] "out.md" "Summarize" =
        .error ⟨.fileNotFound, "Context file not found: " ++ p⟩ ∧
      ∀ backend handle,
        Api.generate_content bareFS backend handle "demo" ["a.txt"] "out.md" "Summarize" =
          .error ⟨.fileNotFound, "Context file not found: " ++ p⟩ :=
  strict_missing_context_file_fails bareFS "demo" "Summarize" "out.md" ["a.txt"]
    ⟨"a.txt", by simp, rfl⟩
    (by intro p hp e; simp at hp; subst hp; simp [bareFS])

/-- C3 counterexample: a context file that exists and is read successfully
but whose content is the empty string contributes no segment to the
best-effort prompt (Python `if file_content:` is false for `""`), so
best-effort assembly does not omit only the paths that do not exist. -/
theorem legacy_empty_file_skipped :
    Legacy.read_file_content emptyFileFS "e.txt" = some "" ∧
    Legacy.create_prompt_inputs emptyFileFS "demo" ["e.txt"] "out.md" "Summarize" =
      [["Summarize", "⫻const:repo_name\ndemo"], ["Generate out.md\n"]] :=
  ⟨rfl, rfl⟩

/-- C3 (amended): best-effort assembly keeps, in caller order, exactly the
context paths that read successfully with non-empty content, each
contributing its `⫻context/file:{path}\n{content}` segment; paths that do
not exist, fail to read, or read as the empty string are the ones omitted. -/
theorem legacy_prompt_omits_unreadable_or_empty (fs : FS)
    (repo_name instruction target : String) (paths : List String) :
    Legacy.create_prompt_inputs fs repo_name paths target instruction =
      [[instruction, "⫻const:repo_name\n" ++ repo_name]]
        ++ ((paths.filter fun p =>
              decide (((Legacy.read_file_content fs p).getD "") ≠ "")).map
            fun p => ["⫻context/file:" ++ p ++ "\n" ++ (Legacy.read_file_content fs p).getD ""])
        ++ [["Generate " ++ target ++ "\n"]] := by
  unfold Legacy.create_prompt_inputs
  rw [legacy_context_filter]

/-- C4: constructing `GeminiRepoAPI` with no explicit key and
`GEMINI_API_KEY` unset fails with the `ValueError` ("MissingCredential") for
every client constructor — i.e. before any network activity — while a
non-empty credential from either source means construction never fails with
that error. -/
theorem missing_credential_raised_before_network
    (client_init : String → Except String Unit) (model_name : String) :
    Api.init client_init none none model_name =
      .error ⟨.valueError, "GEMINI_API_KEY not provided or set in environment variables."⟩ ∧
    ∀ api_key env_key : Option String,
      ((∃ k, api_key = some k ∧ k ≠ "") ∨ (∃ k, env_key = some k ∧ k ≠ "")) →
      ¬ isMissingCredential (Api.init client_init api_key env_key model_name) :=
  ⟨init_missing_key client_init none none model_name (Or.inl rfl) (Or.inl rfl),
    fun api_key env_key hav =>
      not_missing_of_available client_init api_key env_key model_name hav⟩

/-- C4 witness: with no credential the construction fails with the
`ValueError`; with an explicit key it does not. -/
theorem missing_credential_demo :
    Api.init okClient none none "gemini-2.0-flash" =
      .error ⟨.valueError, "GEMINI_API_KEY not provided or set in environment variables."⟩ ∧
    ¬ isMissingCredential (Api.init okClient (some "key") none "gemini-2.0-flash") :=
  ⟨(missing_credential_raised_before_network okClient "gemini-2.0-flash").1,
    (missing_credential_raised_before_network okClient "gemini-2.0-flash").2
      (some "key") none (Or.inl ⟨"key", rfl, by decide⟩)⟩

/-- C5: for every finite chunk stream, `generate_content` returns exactly
the concatenation of the chunks' text in arrival order — the spec-modelled
`generateComplete` result — and its reported character length is the length
of that concatenation; this holds for the strict accumulation loop
(src/gemini_repo/api.py, whenever its assembly succeeds) and unconditionally
for the legacy accumulation loop (gemini_repo/gemini_repo_api.py). -/
theorem streaming_equals_generate_complete (fs : FS) (content : String → String)
    (handle : ProviderHandle) (chunks : List Chunk)
    (repo_name instruction target : String) (paths : List String) :
    ((∀ p ∈ paths, fs p = .ok (content p)) →
      ∃ s, Api.generate_content fs (fun _ _ _ => .ok chunks) handle
          repo_name paths target instruction = .ok s ∧
        s = generateComplete chunks ∧
        s.length = (generateComplete chunks).length) ∧
    (∃ s, Legacy.generate_content fs (fun _ _ _ => .ok chunks) handle
        repo_name paths target instruction = .ok s ∧
      s = generateComplete chunks ∧
      s.length = (generateComplete chunks).length) := by
  constructor
  · intro h
    refine ⟨strJoin ((chunks.filter fun c => !c.parts.isEmpty).map Chunk.text), ?_, ?_, ?_⟩
    · simp [Api.generate_content, Api.create_prompt_inputs,
        context_parts_all_ok fs content paths h]
    · rw [strJoin_filter_nonempty]; rfl
    · rw [strJoin_filter_nonempty]; rfl
  · refine ⟨chunks.foldl (fun acc c => acc ++ Chunk.text c) "", rfl, ?_, ?_⟩
    · rw [foldl_append_text]; rfl
    · rw [foldl_append_text]; rfl

/-- C5 witness: the spec section 8 stream `["Hel", "lo, ", "world"]` yields
`"Hello, world"` of length 12 through both loops. -/
theorem streaming_demo_hello_world :
    (∃ s, Api.generate_content demoFS (fun _ _ _ => .ok demoChunks) demoHandle
        "demo" ["a.txt"] "out.md" "Summarize" = .ok s ∧
      s = generateComplete demoChunks ∧
      s.length = (generateComplete demoChunks).length) ∧
    (∃ s, Legacy.generate_content demoFS (fun _ _ _ => .ok demoChunks) demoHandle
        "demo" ["a.txt"] "out.md" "Summarize" = .ok s ∧
      s = generateComplete demoChunks ∧
      s.length = (generateComplete demoChunks).length) ∧
    generateComplete demoChunks = "Hello, world" ∧
    ("Hello, world" : String).length = 12 :=
  ⟨(streaming_equals_generate_complete demoFS (fun _ => "hello") demoHandle demoChunks
      "demo" "Summarize" "out.md" ["a.txt"]).1
      (by intro p hp; simp at hp; subst hp; rfl),
    (streaming_equals_generate_complete demoFS (fun _ => "hello") demoHandle demoChunks
      "demo" "Summarize" "out.md" ["a.txt"]).2,
    rfl, rfl⟩

/-- C6: for every input, including the empty context list and in both strict
and best-effort assembly, the last element of the assembled prompt is the
target directive naming the target file. -/
theorem final_part_always_target_directive (fs : FS)
    (repo_name instruction target : String) (paths : List String) :
    (∀ l, Api.create_prompt_inputs fs repo_name paths target instruction = .ok l →
      l.getLast? = some ("Generate content for the file: " ++ target ++ "\n")) ∧
    (Legacy.create_prompt_inputs fs repo_name paths target instruction).getLast? =
      some ["Generate " ++ target ++ "\n"] := by
  constructor
  · intro l hl
    cases hcp : Api.context_parts fs paths with
    | error e => simp [Api.create_prompt_inputs, hcp] at hl
    | ok parts =>
      simp [Api.create_prompt_inputs, hcp] at hl
      subst hl
      exact getLast?_cons_cons_append _ _ _ _
  · unfold Legacy.create_prompt_inputs
    exact List.getLast?_concat _

/-- C6 witness: with no context files, both assemblers still end with the
target directive. -/
theorem final_part_target_directive_demo :
    (["Summarize", "⫻const:repo_name\ndemo",
        "Generate content for the file: out.md\n"] : List String).getLast? =
      some ("Generate content for the file: out.md\n") ∧
    (Legacy.create_prompt_inputs bareFS "demo" [] "out.md" "Summarize").getLast? =
      some ["Generate out.md\n"] :=
  ⟨(final_part_always_target_directive bareFS "demo" "Summarize" "out.md" []).1 _ rfl,
    (final_part_always_target_directive bareFS "demo" "Summarize" "out.md" []).2⟩

/-- C7: every failure inside `generate_content` is surfaced to the caller
with the original message preserved: either the assembly
`FileNotFoundError` is re-raised unchanged, or the raised exception's
message contains the original error's message (from an `IOError` during
assembly or from the backend) as a substring. -/
theorem generation_errors_preserve_original_message (fs : FS)
    (backend : String → GenConfig → List String → Except String (List Chunk))
    (handle : ProviderHandle) (repo_name instruction target : String)
    (paths : List String) (e : PyErr)
    (h : Api.generate_content fs backend handle repo_name paths target instruction =
      .error e) :
    (e.kind = .fileNotFound ∧
      Api.create_prompt_inputs fs repo_name paths target instruction = .error e) ∨
    (∃ m,
      (Api.create_prompt_inputs fs repo_name paths target instruction =
          .error ⟨.ioError, m⟩ ∨
        ∃ inputs, Api.create_prompt_inputs fs repo_name paths target instruction =
            .ok inputs ∧
          backend handle.model_name handle.config inputs = .error m) ∧
      ∃ a b, e.msg = a ++ m ++ b) := by
  cases hcp : Api.create_prompt_inputs fs repo_name paths target instruction with
  | error e' =>
    obtain ⟨k, msg⟩ := e'
    rcases create_prompt_inputs_error_kind fs repo_name target instruction paths
        ⟨k, msg⟩ hcp with hk | hk
    · simp only [PyErr.kind] at hk
      subst hk
      simp [Api.generate_content, hcp] at h
      subst h
      exact Or.inl ⟨rfl, rfl⟩
    · simp only [PyErr.kind] at hk
      subst hk
      simp [Api.generate_content, hcp] at h
      subst h
      exact Or.inr ⟨msg, Or.inl rfl,
        "An error occurred during content generation: ", "",
        (str_append_empty _).symm⟩
  | ok inputs =>
    cases hb : backend handle.model_name handle.config inputs with
    | error m =>
      simp [Api.generate_content, hcp, hb] at h
      subst h
      exact Or.inr ⟨m, Or.inr ⟨inputs, rfl, hb⟩,
        "An error occurred during content generation: ", "",
        (str_append_empty _).symm⟩
    | ok chunks => simp [Api.generate_content, hcp, hb] at h

/-- C7 witness: a backend failure with message `"boom"` is wrapped with the
original message preserved as a substring. -/
theorem generation_error_message_demo :
    ((⟨.exception, "An error occurred during content generation: boom"⟩ : PyErr).kind =
        .fileNotFound ∧
      Api.create_prompt_inputs demoFS "demo" ["a.txt"] "out.md" "Summarize" =
        .error ⟨.exception, "An error occurred during content generation: boom"⟩) ∨
    (∃ m,
      (Api.create_prompt_inputs demoFS "demo" ["a.txt"] "out.md" "Summarize" =
          .error ⟨.ioError, m⟩ ∨
        ∃ inputs, Api.create_prompt_inputs demoFS "demo" ["a.txt"] "out.md" "Summarize" =
            .ok inputs ∧
          boomBackend demoHandle.model_name demoHandle.config inputs = .error m) ∧
      ∃ a b, ("An error occurred during content generation: boom" : String) =
        a ++ m ++ b) :=
  generation_errors_preserve_original_message demoFS boomBackend demoHandle
    "demo" "Summarize" "out.md" ["a.txt"]
    ⟨.exception, "An error occurred during content generation: boom"⟩ rfl

/-- C8 counterexample: the legacy CLI entry point installed by setup.py
(`gemini_repo_cli.gemini_repo_cli:main`), run with `GEMINI_API_KEY` unset,
prints an initialization error yet finishes with exit code 0 — so the claim
that the CLI exits non-zero on any initialization failure is false for it. -/
theorem legacy_cli_exits_zero_on_missing_key :
    (Legacy.main bareFS okClient okLegacyBackend none "gemini-2.0-flash"
        "demo" "out.md" "Summarize" []).errorMessage =
      some "Error: GEMINI_API_KEY environment variable not set." ∧
    (Legacy.main bareFS okClient okLegacyBackend none "gemini-2.0-flash"
        "demo" "out.md" "Summarize" []).exitCode = 0 :=
  ⟨rfl, rfl⟩

/-- C8 (amended): the strict CLI (src/gemini_repo/cli.py) exits 0 exactly
when initialization, generation and output writing all succeed and exits 1
on any failure — including a missing API key, an unreadable context file and
a backend error — while the legacy CLI (gemini_repo_cli) finishes with exit
code 0 on every path, printing failures instead. -/
theorem cli_exit_codes (fs : FS) (client_init : String → Except String Unit)
    (backend : String → GenConfig → List String → Except String (List Chunk))
    (legacy_backend : String → GenConfig → List (List String) → Except String Unit)
    (write_output : String → Except String Unit)
    (api_key_arg env_key : Option String)
    (model_name repo_name target_file prompt : String) (files : List String) :
    (Cli.main fs client_init backend write_output api_key_arg env_key
        model_name repo_name target_file prompt files = 0 ∨
      Cli.main fs client_init backend write_output api_key_arg env_key
        model_name repo_name target_file prompt files = 1) ∧
    (Cli.main fs client_init backend write_output api_key_arg env_key
        model_name repo_name target_file prompt files = 0 ↔
      ∃ handle content,
        Api.init client_init api_key_arg env_key model_name = .ok handle ∧
        Api.generate_content fs backend handle repo_name files target_file prompt =
          .ok content ∧
        write_output content = .ok ()) ∧
    ((api_key_arg = none ∨ api_key_arg = some "") →
      (env_key = none ∨ env_key = some "") →
      Cli.main fs client_init backend write_output api_key_arg env_key
        model_name repo_name target_file prompt files = 1) ∧
    (Legacy.main fs client_init legacy_backend env_key
        model_name repo_name target_file prompt files).exitCode = 0 := by
  refine ⟨?_, ⟨?_, ?_⟩, ?_, ?_⟩
  · cases h1 : Api.init client_init api_key_arg env_key model_name with
    | error e => right; simp [Cli.main, h1]
    | ok handle =>
      cases h2 : Api.generate_content fs backend handle repo_name files target_file prompt with
      | error e => right; simp [Cli.main, h1, h2]
      | ok content =>
        cases h3 : write_output content with
        | error e => right; simp [Cli.main, h1, h2, h3]
        | ok u => left; cases u; simp [Cli.main, h1, h2, h3]
  · intro h0
    cases h1 : Api.init client_init api_key_arg env_key model_name with
    | error e => simp [Cli.main, h1] at h0
    | ok handle =>
      cases h2 : Api.generate_content fs backend handle repo_name files target_file prompt with
      | error e => simp [Cli.main, h1, h2] at h0
      | ok content =>
        cases h3 : write_output content with
        | error e => simp [Cli.main, h1, h2, h3] at h0
        | ok u => exact ⟨handle, content, rfl, h2, by cases u; exact h3⟩
  · rintro ⟨handle, content, h1, h2, h3⟩
    simp [Cli.main, h1, h2, h3]
  · intro ha henv
    simp [Cli.main, init_missing_key client_init api_key_arg env_key model_name ha henv]
  · cases env_key with
    | none => rfl
    | some k =>
      by_cases hk : k = ""
      · subst hk; rfl
      · cases hci : client_init k with
        | error e => simp [Legacy.main, if_neg hk, hci]
        | ok u =>
          cases hlb : legacy_backend model_name Legacy.generation_config
              (Legacy.create_prompt_inputs fs repo_name files target_file prompt) with
          | error e => simp [Legacy.main, if_neg hk, hci, hlb]
          | ok v => simp [Legacy.main, if_neg hk, hci, hlb]

/-- C8 witness: a fully successful strict-CLI run exits 0, and the legacy
CLI also reports exit code 0. -/
theorem cli_exit_codes_demo :
    Cli.main demoFS okClient demoBackend okWrite (some "key") none
      "gemini-2.0-flash" "demo" "out.md" "Summarize" ["a.txt"] = 0 ∧
    (Legacy.main demoFS okClient okLegacyBackend none "gemini-2.0-flash"
      "demo" "out.md" "Summarize" ["a.txt"]).exitCode = 0 :=
  ⟨(cli_exit_codes demoFS okClient demoBackend okLegacyBackend okWrite (some "key") none
      "gemini-2.0-flash" "demo" "out.md" "Summarize" ["a.txt"]).2.1.mpr
      ⟨demoHandle, "Hello, world", rfl, rfl, rfl⟩,
    (cli_exit_codes demoFS okClient demoBackend okLegacyBackend okWrite (some "key") none
      "gemini-2.0-flash" "demo" "out.md" "Summarize" ["a.txt"]).2.2.2⟩

/-- C9: every handle produced by construction carries exactly the
generation config fixed at construction, and both provider configurations
in the repository set one candidate, a temperature between 0.1 and 0.2
inclusive, and a ceiling of exactly 8192 output tokens. -/
theorem generation_parameters_fixed (client_init : String → Except String Unit)
    (api_key env_key : Option String) (model_name : String) :
    (∀ handle, Api.init client_init api_key env_key model_name = .ok handle →
      handle.config = Api.generation_config) ∧
    (Api.generation_config.candidate_count = 1 ∧
      1/10 ≤ Api.generation_config.temperature ∧
      Api.generation_config.temperature ≤ 2/10 ∧
      Api.generation_config.max_output_tokens = 8192) ∧
    (Legacy.generation_config.candidate_count = 1 ∧
      1/10 ≤ Legacy.generation_config.temperature ∧
      Legacy.generation_config.temperature ≤ 2/10 ∧
      Legacy.generation_config.max_output_tokens = 8192) := by
  refine ⟨?_,
    ⟨rfl, by norm_num [Api.generation_config], by norm_num [Api.generation_config], rfl⟩,
    ⟨rfl, by norm_num [Legacy.generation_config], by norm_num [Legacy.generation_config], rfl⟩⟩
  intro handle hh
  obtain ⟨k, _, _, hshape⟩ :=
    init_ok_shape client_init api_key env_key model_name handle hh
  rw [hshape]

/-- C9 witness: a concrete successful construction carries the fixed config,
whose candidate count is 1. -/
theorem generation_parameters_demo :
    demoHandle.config = Api.generation_config ∧
    Api.generation_config.candidate_count = 1 :=
  ⟨(generation_parameters_fixed okClient (some "key") none "gemini-2.0-flash").1
      demoHandle rfl,
    (generation_parameters_fixed okClient (some "key") none "gemini-2.0-flash").2.1.1⟩

/-- C10: an explicit empty-string api_key behaves exactly like an absent
one; a non-empty explicit key takes precedence over the environment (the
environment value is irrelevant and the handle stores the explicit key);
with a blank or absent explicit key the effective credential is the
`GEMINI_API_KEY` environment value (the handle stores it); and construction
fails with the `ValueError` exactly when both the argument and the
environment variable are empty or unset. -/
theorem api_key_resolution (client_init : String → Except String Unit)
    (env_key : Option String) (model_name : String) :
    Api.init client_init (some "") env_key model_name =
      Api.init client_init none env_key model_name ∧
    (∀ k, k ≠ "" →
      Api.init client_init (some k) env_key model_name =
        Api.init client_init (some k) none model_name ∧
      ∀ handle, Api.init client_init (some k) env_key model_name = .ok handle →
        handle.api_key = k) ∧
    (∀ k, env_key = some k →
      ∀ api_key : Option String, (api_key = none ∨ api_key = some "") →
      ∀ handle, Api.init client_init api_key env_key model_name = .ok handle →
        handle.api_key = k) ∧
    ∀ api_key : Option String,
      (isMissingCredential (Api.init client_init api_key env_key model_name) ↔
        ((api_key = none ∨ api_key = some "") ∧
          (env_key = none ∨ env_key = some ""))) := by
  refine ⟨rfl, ?_, ?_, ?_⟩
  · intro k hk
    constructor
    · simp [Api.init, Api.resolved_key, if_neg hk]
    · intro handle hh
      obtain ⟨k', hres, _, hshape⟩ :=
        init_ok_shape client_init (some k) env_key model_name handle hh
      simp [Api.resolved_key, if_neg hk] at hres
      rw [hshape, ← hres]
  · intro k henv api_key ha handle hh
    obtain ⟨k', hres, _, hshape⟩ :=
      init_ok_shape client_init api_key env_key model_name handle hh
    have hres' : Api.resolved_key api_key env_key = some k := by
      rcases ha with rfl | rfl <;> simp [Api.resolved_key, henv]
    rw [hres'] at hres
    obtain rfl := Option.some.inj hres
    rw [hshape]
  · intro api_key
    constructor
    · intro hmc
      by_contra hnot
      rcases not_and_or.mp hnot with ha | henv
      · exact not_missing_of_available client_init api_key env_key model_name
          (Or.inl (opt_nonempty_of_not_blank api_key ha)) hmc
      · exact not_missing_of_available client_init api_key env_key model_name
          (Or.inr (opt_nonempty_of_not_blank env_key henv)) hmc
    · rintro ⟨ha, henv⟩
      simp [init_missing_key client_init api_key env_key model_name ha henv,
        isMissingCredential]

/-- C10 witness: an explicit empty key with the environment set behaves like
an absent key; an explicit non-empty key is the stored credential; with no
explicit key the environment value is the stored credential; both sources
empty means the `ValueError` is raised. -/
theorem api_key_resolution_demo :
    Api.init okClient (some "") (some "envkey") "gemini-2.0-flash" =
      Api.init okClient none (some "envkey") "gemini-2.0-flash" ∧
    demoHandle.api_key = "key" ∧
    (⟨"envkey", "gemini-2.0-flash", Api.generation_config⟩ : ProviderHandle).api_key =
      "envkey" ∧
    isMissingCredential (Api.init okClient (some "") none "gemini-2.0-flash") :=
  ⟨(api_key_resolution okClient (some "envkey") "gemini-2.0-flash").1,
    ((api_key_resolution okClient none "gemini-2.0-flash").2.1 "key"
      (by decide)).2 demoHandle rfl,
    (api_key_resolution okClient (some "envkey") "gemini-2.0-flash").2.2.1 "envkey" rfl
      none (Or.inl rfl)
      ⟨"envkey", "gemini-2.0-flash", Api.generation_config⟩ rfl,
    ((api_key_resolution okClient none "gemini-2.0-flash").2.2.2 (some "")).mpr
      ⟨Or.inr rfl, Or.inl rfl⟩⟩

end GeminiRepo
